import Mathlib

/-!
Shallow embedding of the keystore import workflow of
`src/account_manager/src/validator/import.rs` (`cli_run` and its helpers).

The filesystem is modelled as finite lists of file and directory paths
(plain strings).  External collaborators (the `clap` argument parser, the
`eth2_keystore` decryption routine, `account_utils`'s registry
load/append/save and the recursive keystore discovery) are modelled by
their contracts: decryption is an oracle `String → DecryptResult` carried
by each candidate, discovery results and registry contents are inputs,
and fallible filesystem / registry operations carry explicit fault flags
so that every error branch of the source is reachable in the model.
-/

namespace LighthouseImport

/-- Result classification of `Keystore::decrypt_keypair` (external crate
`eth2_keystore`): success, `Error::InvalidPassword`, or any other error. -/
inductive DecryptResult where
  | ok : DecryptResult
  | invalidPassword : DecryptResult
  | otherError : String → DecryptResult
deriving DecidableEq

/-- Outcome of the password-acquisition loop of `cli_run`
(`import.rs` lines 145-169). -/
inductive PwOutcome where
  | noPassword : PwOutcome
  | password : String → PwOutcome
  | fatal : String → PwOutcome
  | exhausted : PwOutcome
deriving DecidableEq

/-- The `loop` of `import.rs` lines 145-169, run against a finite sequence of
operator inputs.  The second component counts `decrypt_keypair` invocations.
Empty input breaks with no password; a successful decryption breaks with the
entered secret; `InvalidPassword` re-prompts; any other decryption error is
fatal.  `exhausted` marks running out of modelled operator inputs (in the
source, the next `read_password` would block or fail). -/
def passwordLoop (decrypt : String → DecryptResult) : List String → PwOutcome × Nat
  | [] => (PwOutcome.exhausted, 0)
  | p :: rest =>
    if p.isEmpty then (PwOutcome.noPassword, 0)
    else
      match decrypt p with
      | DecryptResult.ok => (PwOutcome.password p, 1)
      | DecryptResult.invalidPassword =>
        let r := passwordLoop decrypt rest
        (r.1, r.2 + 1)
      | DecryptResult.otherError e =>
        (PwOutcome.fatal ("Error whilst decrypting keypair: " ++ e), 1)

/-- A password outcome that lets the iteration continue: `none` for an empty
input accepted without password, `some s` for a verified secret. -/
def resolvedPassword : PwOutcome → Option (Option String)
  | PwOutcome.noPassword => some none
  | PwOutcome.password s => some (some s)
  | _ => none

/-- Model filesystem: the set of existing files and directories, as lists of
absolute path strings. -/
structure FS where
  files : List String
  dirs : List String
deriving DecidableEq

def FS.fileExists (fs : FS) (p : String) : Bool := fs.files.contains p

def FS.dirExists (fs : FS) (p : String) : Bool := fs.dirs.contains p

/-- `Path::exists`: the path is present as a file or as a directory. -/
def FS.pathExists (fs : FS) (p : String) : Bool := fs.fileExists p || fs.dirExists p

/-- Effect of a successful `fs::copy(_, p)`: the destination file exists. -/
def FS.createFile (fs : FS) (p : String) : FS :=
  { fs with files := if fs.files.contains p then fs.files else p :: fs.files }

/-- Effect of a successful `fs::remove_file(p)`. -/
def FS.removeFile (fs : FS) (p : String) : FS :=
  { fs with files := fs.files.filter (fun q => q ≠ p) }

/-- Effect of a successful `fs::create_dir_all(p)` (intermediate directories
are not tracked individually). -/
def FS.createDirAll (fs : FS) (p : String) : FS :=
  { fs with dirs := if fs.dirs.contains p then fs.dirs else p :: fs.dirs }

/-- Observable events of a run: filesystem I/O, registry I/O and the
`eprintln!` messages relevant to the claims. -/
inductive Event where
  | ensureDir : String → Event
  | openRegistry : Event
  | openKeystore : String → Event
  | createDir : String → Event
  | copyFile : String → String → Event
  | removeFileEv : String → Event
  | saveRegistry : Event
  | info : String → Event
  | summary : Nat → Event
deriving DecidableEq

def isSummary : Event → Bool
  | Event.summary _ => true
  | _ => false

/-- A `ValidatorDefinition` as appended by
`ValidatorDefinition::new_keystore_with_password` (external crate
`account_utils`; per its contract it records the relocated path, the
optional password and an enabled flag). -/
structure ValidatorDefinition where
  identity : String
  container_path : String
  password : Option String
  enabled : Bool
deriving DecidableEq

/-- Run state: model filesystem, in-memory registry (`defs`), durably saved
registry (`saved`), and the event trace. -/
structure St where
  fs : FS
  defs : List ValidatorDefinition
  saved : List ValidatorDefinition
  trace : List Event
deriving DecidableEq

def St.log (st : St) (e : Event) : St := { st with trace := st.trace ++ [e] }

/-- Fault flags deciding which fallible external operations fail during one
candidate's iteration.  `originalGoneAfterFailedRemove` models the race in
which `fs::remove_file` on the original fails while the file was
concurrently deleted by an external actor (`import.rs` lines 197-208). -/
structure Faults where
  openFails : Bool := false
  parseFails : Bool := false
  mkdirFails : Bool := false
  copyFails : Bool := false
  removeOriginalFails : Bool := false
  originalGoneAfterFailedRemove : Bool := false
  removeCopyFails : Bool := false
  defBuildFails : Bool := false
  saveFails : Bool := false

/-- One discovered keystore candidate: its path, its file name as recovered
by `file_name().and_then(to_str)` (`none` when the name is not valid UTF-8),
the keystore metadata parsed by `Keystore::from_json_file`, the decryption
oracle, the operator's password inputs for this candidate, and the fault
flags of its iteration. -/
structure Candidate where
  path : String
  fileName : Option String
  pubkey : String
  uuid : String
  decrypt : String → DecryptResult
  inputs : List String
  flt : Faults

def pathJoin (a b : String) : String := a ++ "/" ++ b

/-- `validator_dir.join(format!("0x{}", keystore.pubkey()))`
(`import.rs` line 173). -/
def dest_dir (validator_dir pubkey : String) : String :=
  pathJoin validator_dir ("0x" ++ pubkey)

/-- Result of a run or of an aborted run: final state plus the error of the
`Err` early return, if any. -/
structure RunResult where
  st : St
  err : Option String
deriving DecidableEq

/-- Relocation and registration half of one loop iteration
(`import.rs` lines 171-222), entered once the password is resolved. -/
def importRelocate (validator_dir : String) (c : Candidate)
    (password_opt : Option String) (st : St) : RunResult :=
  let dest := dest_dir validator_dir c.pubkey
  if st.fs.pathExists dest then
    { st := st, err := some ("Refusing to re-import an existing public key: " ++ c.path) }
  else if c.flt.mkdirFails then
    { st := st, err := some "Unable to create import directory" }
  else
    let st := ({ st with fs := st.fs.createDirAll dest } : St).log (Event.createDir dest)
    match c.fileName with
    | none => { st := st, err := some ("Badly formatted file name: " ++ c.path) }
    | some name =>
      let moved_path := pathJoin dest name
      if c.flt.copyFails then
        { st := st, err := some "Unable to copy keystore" }
      else
        let st := ({ st with fs := st.fs.createFile moved_path } : St).log
          (Event.copyFile c.path moved_path)
        if c.flt.removeOriginalFails then
          let st :=
            if c.flt.originalGoneAfterFailedRemove then
              { st with fs := st.fs.removeFile c.path }
            else st
          if st.fs.fileExists c.path then
            if c.flt.removeCopyFails then
              { st := st, err := some "Unable to remove copied keystore" }
            else
              { st := ({ st with fs := st.fs.removeFile moved_path } : St).log
                  (Event.removeFileEv moved_path),
                err := some ("Unable to delete " ++ c.path) }
          else
            { st := st, err := some "An error occurred whilst moving files" }
        else
          let st := ({ st with fs := st.fs.removeFile c.path } : St).log
            (Event.removeFileEv c.path)
          let st := st.log (Event.info "Successfully moved keystore.")
          if c.flt.defBuildFails then
            { st := st, err := some "Unable to create new validator definition" }
          else
            let vdef : ValidatorDefinition :=
              { identity := c.pubkey, container_path := moved_path,
                password := password_opt, enabled := true }
            let st := { st with defs := st.defs ++ [vdef] }
            if c.flt.saveFails then
              { st := st, err := some "Unable to save validator_definitions.yml" }
            else
              { st := (({ st with saved := st.defs } : St).log Event.saveRegistry).log
                  (Event.info "Successfully updated validator_definitions.yml."),
                err := none }

/-- One full iteration of the `for keystore_path in &keystore_paths` loop
(`import.rs` lines 115-223): read/write permission check, metadata parse,
password acquisition, then relocation and registration. -/
def importOne (validator_dir : String) (c : Candidate) (st : St) : RunResult :=
  let st := st.log (Event.openKeystore c.path)
  if !(st.fs.fileExists c.path) || c.flt.openFails then
    { st := st,
      err := some ("Unable to get read and write permissions on keystore " ++ c.path) }
  else if c.flt.parseFails then
    { st := st, err := some ("Unable to read keystore JSON " ++ c.path) }
  else
    let st := st.log (Event.info ("Keystore found at " ++ c.path))
    match (passwordLoop c.decrypt c.inputs).1 with
    | PwOutcome.fatal m => { st := st, err := some m }
    | PwOutcome.exhausted => { st := st, err := some "Error reading password input" }
    | PwOutcome.noPassword => importRelocate validator_dir c none st
    | PwOutcome.password s => importRelocate validator_dir c (some s) st

/-- The candidate loop: stop at the first iteration returning an error
(every error in the source body is an early `return Err`). -/
def runLoop (validator_dir : String) : List Candidate → St → RunResult
  | [], st => { st := st, err := none }
  | c :: cs, st =>
    let r := importOne validator_dir c st
    match r.err with
    | some _ => r
    | none => runLoop validator_dir cs r.st

/-- Loop plus the final summary of `import.rs` lines 225-226: the summary
`eprintln!` runs only after the loop has completed every iteration, and it
reports `keystore_paths.len()`. -/
def finishLoop (validator_dir : String) (ks : List Candidate) (st : St) : RunResult :=
  let r := runLoop validator_dir ks st
  match r.err with
  | some _ => r
  | none => { st := r.st.log (Event.summary ks.length), err := none }

/-- Inputs to `cli_run`: the two source-mode arguments (with discovery
results for directory mode already resolved, since
`recursively_find_voting_keystores` is an external collaborator), the
validator directory, the initial filesystem and the registry contents
loaded by `ValidatorDefinitions::open_or_create`. -/
structure RunInput where
  keystoreArg : Option Candidate
  dirArg : Option (List Candidate)
  validator_dir : String
  initFS : FS
  initDefs : List ValidatorDefinition

/-- The candidate list `cli_run` will iterate over, per the `match` of
`import.rs` lines 85-106, when the mode selection is valid. -/
def candidatesOf (inp : RunInput) : Option (List Candidate) :=
  match inp.keystoreArg, inp.dirArg with
  | some c, none => some [c]
  | none, some cs => some cs
  | _, _ => none

/-- `cli_run` (`import.rs` lines 69-229): ensure the validator directory,
open-or-create the registry, resolve the source mode, then run the loop. -/
def cli_run (inp : RunInput) : RunResult :=
  let st0 : St := { fs := inp.initFS, defs := [], saved := [], trace := [] }
  let st1 := ({ st0 with fs := st0.fs.createDirAll inp.validator_dir } : St).log
    (Event.ensureDir inp.validator_dir)
  let st2 := ({ st1 with defs := inp.initDefs, saved := inp.initDefs } : St).log
    Event.openRegistry
  match inp.keystoreArg, inp.dirArg with
  | some c, none => finishLoop inp.validator_dir [c] st2
  | none, some cs =>
    if cs.isEmpty then
      { st := st2.log (Event.info "No keystores found"), err := none }
    else
      finishLoop inp.validator_dir cs st2
  | _, _ =>
    { st := st2, err := some "Must supply either --keystore or --directory" }

/-- Modelled from the spec: the `clap` declarations of `cli_app`
(`import.rs` lines 29-51) mark `--keystore` as `conflicts_with` and
`required_unless` `--directory`, so the external argument parser accepts a
flag selection exactly when precisely one of the two modes is present. -/
def cli_app_accepts (hasKeystore hasDir : Bool) : Bool :=
  (hasKeystore && !hasDir) || (!hasKeystore && hasDir)

/-- Modelled from the spec: the whole program run.  Argument parsing by
`clap` happens before `cli_run` is entered; a rejected flag selection is a
configuration error surfaced with no run state touched and no I/O. -/
def program_run (inp : RunInput) : RunResult :=
  if cli_app_accepts inp.keystoreArg.isSome inp.dirArg.isSome then
    cli_run inp
  else
    { st := { fs := inp.initFS, defs := [], saved := [], trace := [] },
      err := some "Configuration error: supply exactly one of --keystore and --directory" }


/-- A `ValidatorDefinition` record as built in the success path. -/
def mkDef (v : String) (c : Candidate) (n : String) (po : Option String) : ValidatorDefinition :=
  { identity := c.pubkey, container_path := pathJoin (dest_dir v c.pubkey) n,
    password := po, enabled := true }

/-! Concrete fixtures used to instantiate the theorems below on explicit inputs. -/

def exDecrypt : String → DecryptResult := fun _ => DecryptResult.invalidPassword

def dEx : String → DecryptResult :=
  fun s => if s = "b" then DecryptResult.ok else DecryptResult.invalidPassword

def okCand : Candidate :=
  { path := "/in/keystore-0.json", fileName := some "keystore-0.json", pubkey := "abc123",
    uuid := "uuid-0", decrypt := exDecrypt, inputs := [""], flt := {} }

def okSt : St :=
  { fs := { files := ["/in/keystore-0.json"], dirs := ["/in"] },
    defs := [], saved := [], trace := [] }

def c1Cand : Candidate :=
  { path := "/in/keystore-1.json", fileName := some "keystore-1.json", pubkey := "aa1",
    uuid := "uuid-1", decrypt := exDecrypt, inputs := [""],
    flt := { removeOriginalFails := true } }

def c1St : St :=
  { fs := { files := ["/in/keystore-1.json"], dirs := ["/in"] },
    defs := [], saved := [], trace := [] }

def c9Cand : Candidate :=
  { path := "/in/keystore-9.json", fileName := some "keystore-9.json", pubkey := "aa9",
    uuid := "uuid-9", decrypt := exDecrypt, inputs := [""],
    flt := { removeOriginalFails := true, removeCopyFails := true } }

def c9St : St :=
  { fs := { files := ["/in/keystore-9.json"], dirs := ["/in"] },
    defs := [], saved := [], trace := [] }

def c2Cand : Candidate :=
  { path := "/in/keystore-2.json", fileName := some "keystore-2.json", pubkey := "aa2",
    uuid := "uuid-2", decrypt := exDecrypt, inputs := [""], flt := {} }

def c2St : St :=
  { fs := { files := ["/in/keystore-2.json"], dirs := ["/in", "/v/0xaa2"] },
    defs := [], saved := [], trace := [] }

def c10Cand : Candidate :=
  { path := "/in/keystore-x", fileName := none, pubkey := "aaX",
    uuid := "uuid-10", decrypt := exDecrypt, inputs := [""], flt := {} }

def c10St : St :=
  { fs := { files := ["/in/keystore-x"], dirs := ["/in"] },
    defs := [], saved := [], trace := [] }

def cg1 : Candidate :=
  { path := "/in/keystore-g1.json", fileName := some "keystore-g1.json", pubkey := "g01",
    uuid := "uuid-g1", decrypt := exDecrypt, inputs := [""], flt := {} }

def cbad : Candidate :=
  { path := "/in/keystore-bad.json", fileName := some "keystore-bad.json", pubkey := "b01",
    uuid := "uuid-b", decrypt := exDecrypt, inputs := [""],
    flt := { openFails := true } }

def cg2 : Candidate :=
  { path := "/in/keystore-g2.json", fileName := some "keystore-g2.json", pubkey := "g02",
    uuid := "uuid-g2", decrypt := exDecrypt, inputs := [""], flt := {} }

def c3St : St :=
  { fs := { files := ["/in/keystore-g1.json", "/in/keystore-bad.json", "/in/keystore-g2.json"],
            dirs := ["/in"] },
    defs := [], saved := [], trace := [] }

def c5Inp : RunInput :=
  { keystoreArg := none, dirArg := none, validator_dir := "/v",
    initFS := { files := [], dirs := [] }, initDefs := [] }

def c6Bad : Candidate :=
  { path := "/in/keystore-6.json", fileName := some "keystore-6.json", pubkey := "aa6",
    uuid := "uuid-6", decrypt := exDecrypt, inputs := [""], flt := {} }

def c6Inp : RunInput :=
  { keystoreArg := some c6Bad, dirArg := none, validator_dir := "/v",
    initFS := { files := [], dirs := [] }, initDefs := [] }

def c6Ok : Candidate :=
  { path := "/in/keystore-7.json", fileName := some "keystore-7.json", pubkey := "aa7",
    uuid := "uuid-7", decrypt := exDecrypt, inputs := [""], flt := {} }

def c6OkInp : RunInput :=
  { keystoreArg := some c6Ok, dirArg := none, validator_dir := "/v",
    initFS := { files := ["/in/keystore-7.json"], dirs := ["/in"] }, initDefs := [] }

def c8a : Candidate :=
  { path := "/in/keystore-a.json", fileName := some "keystore-a.json", pubkey := "a08",
    uuid := "uuid-a", decrypt := exDecrypt, inputs := [""], flt := {} }

def c8b : Candidate :=
  { path := "/in/keystore-b.json", fileName := some "keystore-b.json", pubkey := "b08",
    uuid := "uuid-b8", decrypt := exDecrypt, inputs := [""], flt := {} }

def c8St : St :=
  { fs := { files := ["/in/keystore-a.json", "/in/keystore-b.json"], dirs := ["/in"] },
    defs := [], saved := [], trace := [] }


/-! Helper lemmas about the embedding. -/

@[simp] theorem St.log_fs (st : St) (e : Event) : (st.log e).fs = st.fs := rfl
@[simp] theorem St.log_defs (st : St) (e : Event) : (st.log e).defs = st.defs := rfl
@[simp] theorem St.log_saved (st : St) (e : Event) : (st.log e).saved = st.saved := rfl
@[simp] theorem St.log_trace (st : St) (e : Event) : (st.log e).trace = st.trace ++ [e] := rfl

theorem FS.fileExists_iff (fs : FS) (p : String) : fs.fileExists p = true ↔ p ∈ fs.files := by
  simp [FS.fileExists]

@[simp] theorem FS.files_createDirAll (fs : FS) (q : String) :
    (fs.createDirAll q).files = fs.files := rfl

@[simp] theorem FS.dirs_createFile (fs : FS) (q : String) :
    (fs.createFile q).dirs = fs.dirs := rfl

@[simp] theorem FS.dirs_removeFile (fs : FS) (q : String) :
    (fs.removeFile q).dirs = fs.dirs := rfl

@[simp] theorem FS.mem_createFile (fs : FS) (p q : String) :
    p ∈ (fs.createFile q).files ↔ (p = q ∨ p ∈ fs.files) := by
  by_cases h : q ∈ fs.files
  · simp [FS.createFile, h]
    exact fun hpq => hpq ▸ h
  · simp [FS.createFile, h]

@[simp] theorem FS.mem_removeFile (fs : FS) (p q : String) :
    p ∈ (fs.removeFile q).files ↔ (p ∈ fs.files ∧ p ≠ q) := by
  simp [FS.removeFile, List.mem_filter]

@[simp] theorem FS.mem_dirs_createDirAll (fs : FS) (p q : String) :
    p ∈ (fs.createDirAll q).dirs ↔ (p = q ∨ p ∈ fs.dirs) := by
  by_cases h : q ∈ fs.dirs
  · simp [FS.createDirAll, h]
    exact fun hpq => hpq ▸ h
  · simp [FS.createDirAll, h]

theorem FS.dirExists_iff (fs : FS) (p : String) : fs.dirExists p = true ↔ p ∈ fs.dirs := by
  simp [FS.dirExists]

theorem FS.pathExists_false (fs : FS) (p : String) (h : fs.pathExists p = false) :
    p ∉ fs.files ∧ p ∉ fs.dirs := by
  simp [FS.pathExists, FS.fileExists, FS.dirExists] at h
  simpa using h

theorem FS.fileExists_false_iff (fs : FS) (p : String) :
    fs.fileExists p = false ↔ p ∉ fs.files := by
  simp [FS.fileExists]

theorem FS.dirExists_false_iff (fs : FS) (p : String) :
    fs.dirExists p = false ↔ p ∉ fs.dirs := by
  simp [FS.dirExists]

theorem importRelocate_err_none (v : String) (c : Candidate) (po : Option String) (st : St)
    (h : (importRelocate v c po st).err = none) :
    st.fs.pathExists (dest_dir v c.pubkey) = false ∧ c.flt.mkdirFails = false ∧
    (∃ n, c.fileName = some n) ∧ c.flt.copyFails = false ∧
    c.flt.removeOriginalFails = false ∧ c.flt.defBuildFails = false ∧
    c.flt.saveFails = false := by
  simp only [importRelocate] at h
  repeat' split at h
  all_goals simp_all

theorem importRelocate_success_spec (v : String) (c : Candidate) (po : Option String) (st : St)
    (h : (importRelocate v c po st).err = none) :
    ∃ n, c.fileName = some n ∧
      st.fs.pathExists (dest_dir v c.pubkey) = false ∧
      importRelocate v c po st =
        { st := { fs := ((st.fs.createDirAll (dest_dir v c.pubkey)).createFile
                      (pathJoin (dest_dir v c.pubkey) n)).removeFile c.path,
                  defs := st.defs ++ [mkDef v c n po],
                  saved := st.defs ++ [mkDef v c n po],
                  trace := st.trace ++ [Event.createDir (dest_dir v c.pubkey),
                      Event.copyFile c.path (pathJoin (dest_dir v c.pubkey) n),
                      Event.removeFileEv c.path,
                      Event.info "Successfully moved keystore.",
                      Event.saveRegistry,
                      Event.info "Successfully updated validator_definitions.yml."] },
          err := none } := by
  simp only [importRelocate] at h ⊢
  repeat' split at h
  all_goals simp_all [mkDef, St.log]

theorem importOne_resolved (v : String) (c : Candidate) (st : St) (po : Option String)
    (hfile : st.fs.fileExists c.path = true) (hopen : c.flt.openFails = false)
    (hparse : c.flt.parseFails = false)
    (hpw : resolvedPassword (passwordLoop c.decrypt c.inputs).1 = some po) :
    importOne v c st = importRelocate v c po
      ((st.log (Event.openKeystore c.path)).log
        (Event.info ("Keystore found at " ++ c.path))) := by
  simp only [importOne, St.log_fs, hfile, hopen, hparse]
  cases hout : (passwordLoop c.decrypt c.inputs).1 <;>
    simp_all [resolvedPassword]

theorem relocate_rollback (v : String) (c : Candidate) (po : Option String) (st : St) (n : String)
    (hdup : st.fs.pathExists (dest_dir v c.pubkey) = false)
    (hmk : c.flt.mkdirFails = false)
    (hn : c.fileName = some n)
    (hcp : c.flt.copyFails = false)
    (hrm : c.flt.removeOriginalFails = true)
    (hgone : c.flt.originalGoneAfterFailedRemove = false)
    (hrc : c.flt.removeCopyFails = false)
    (horig : st.fs.fileExists c.path = true)
    (hne : c.path ≠ pathJoin (dest_dir v c.pubkey) n) :
    (importRelocate v c po st).err = some ("Unable to delete " ++ c.path) ∧
    (importRelocate v c po st).st.fs.fileExists c.path = true ∧
    (importRelocate v c po st).st.fs.fileExists (pathJoin (dest_dir v c.pubkey) n) = false ∧
    (importRelocate v c po st).st.defs = st.defs ∧
    (importRelocate v c po st).st.saved = st.saved := by
  have hne' : pathJoin (dest_dir v c.pubkey) n ≠ c.path := Ne.symm hne
  simp only [importRelocate]
  repeat' split
  all_goals simp_all [FS.fileExists_iff, FS.fileExists_false_iff]

theorem relocate_race (v : String) (c : Candidate) (po : Option String) (st : St) (n : String)
    (hdup : st.fs.pathExists (dest_dir v c.pubkey) = false)
    (hmk : c.flt.mkdirFails = false)
    (hn : c.fileName = some n)
    (hcp : c.flt.copyFails = false)
    (hrm : c.flt.removeOriginalFails = true)
    (hgone : c.flt.originalGoneAfterFailedRemove = true)
    (hne : c.path ≠ pathJoin (dest_dir v c.pubkey) n) :
    (importRelocate v c po st).err = some "An error occurred whilst moving files" ∧
    (importRelocate v c po st).st.fs.fileExists c.path = false ∧
    (importRelocate v c po st).st.fs.fileExists (pathJoin (dest_dir v c.pubkey) n) = true ∧
    (importRelocate v c po st).st.defs = st.defs ∧
    (importRelocate v c po st).st.saved = st.saved := by
  have hne' : pathJoin (dest_dir v c.pubkey) n ≠ c.path := Ne.symm hne
  simp only [importRelocate]
  repeat' split
  all_goals simp_all [FS.fileExists_iff, FS.fileExists_false_iff]

theorem relocate_rollback_fails (v : String) (c : Candidate) (po : Option String) (st : St)
    (n : String)
    (hdup : st.fs.pathExists (dest_dir v c.pubkey) = false)
    (hmk : c.flt.mkdirFails = false)
    (hn : c.fileName = some n)
    (hcp : c.flt.copyFails = false)
    (hrm : c.flt.removeOriginalFails = true)
    (hgone : c.flt.originalGoneAfterFailedRemove = false)
    (hrc : c.flt.removeCopyFails = true)
    (horig : st.fs.fileExists c.path = true) :
    (importRelocate v c po st).err = some "Unable to remove copied keystore" ∧
    (importRelocate v c po st).st.fs.fileExists c.path = true ∧
    (importRelocate v c po st).st.fs.fileExists (pathJoin (dest_dir v c.pubkey) n) = true ∧
    (importRelocate v c po st).st.defs = st.defs ∧
    (importRelocate v c po st).st.saved = st.saved := by
  simp only [importRelocate]
  repeat' split
  all_goals simp_all [FS.fileExists_iff, FS.fileExists_false_iff]

theorem relocate_dup (v : String) (c : Candidate) (po : Option String) (st : St)
    (hdup : st.fs.pathExists (dest_dir v c.pubkey) = true) :
    importRelocate v c po st =
      { st := st, err := some ("Refusing to re-import an existing public key: " ++ c.path) } := by
  simp [importRelocate, hdup]

theorem relocate_badName (v : String) (c : Candidate) (po : Option String) (st : St)
    (hdup : st.fs.pathExists (dest_dir v c.pubkey) = false)
    (hmk : c.flt.mkdirFails = false)
    (hn : c.fileName = none) :
    (importRelocate v c po st).err = some ("Badly formatted file name: " ++ c.path) ∧
    (importRelocate v c po st).st.fs.dirExists (dest_dir v c.pubkey) = true ∧
    (importRelocate v c po st).st.fs.files = st.fs.files ∧
    (importRelocate v c po st).st.defs = st.defs ∧
    (importRelocate v c po st).st.saved = st.saved := by
  simp only [importRelocate]
  repeat' split
  all_goals simp_all [FS.dirExists_iff]

theorem importOne_err_none_pre (v : String) (c : Candidate) (st : St)
    (h : (importOne v c st).err = none) :
    st.fs.fileExists c.path = true ∧ c.flt.openFails = false ∧ c.flt.parseFails = false ∧
    ∃ po, resolvedPassword (passwordLoop c.decrypt c.inputs).1 = some po := by
  simp only [importOne] at h
  repeat' split at h
  all_goals simp_all [resolvedPassword]

theorem dest_dir_injective (r p q : String) (h : dest_dir r p = dest_dir r q) : p = q := by
  simp only [dest_dir, pathJoin] at h
  have hd := congrArg String.data h
  simp only [String.data_append] at hd
  have h1 := List.append_cancel_left hd
  have h2 := List.append_cancel_left h1
  exact String.ext h2

theorem importOne_success_spec (v : String) (c : Candidate) (st : St)
    (h : (importOne v c st).err = none) :
    ∃ n po,
      c.fileName = some n ∧
      st.fs.fileExists c.path = true ∧
      st.fs.pathExists (dest_dir v c.pubkey) = false ∧
      importOne v c st =
        { st := { fs := ((st.fs.createDirAll (dest_dir v c.pubkey)).createFile
                      (pathJoin (dest_dir v c.pubkey) n)).removeFile c.path,
                  defs := st.defs ++ [mkDef v c n po],
                  saved := st.defs ++ [mkDef v c n po],
                  trace := st.trace ++ [Event.openKeystore c.path,
                      Event.info ("Keystore found at " ++ c.path),
                      Event.createDir (dest_dir v c.pubkey),
                      Event.copyFile c.path (pathJoin (dest_dir v c.pubkey) n),
                      Event.removeFileEv c.path,
                      Event.info "Successfully moved keystore.",
                      Event.saveRegistry,
                      Event.info "Successfully updated validator_definitions.yml."] },
          err := none } := by
  obtain ⟨hfile, hopen, hparse, po, hpw⟩ := importOne_err_none_pre v c st h
  rw [importOne_resolved v c st po hfile hopen hparse hpw] at h ⊢
  obtain ⟨n, hn, hdup, hrec⟩ := importRelocate_success_spec v c po _ h
  refine ⟨n, po, hn, hfile, by simpa using hdup, ?_⟩
  rw [hrec]
  simp [St.log]

theorem runLoop_nil (v : String) (st : St) : runLoop v [] st = { st := st, err := none } := rfl

theorem runLoop_cons_ok (v : String) (c : Candidate) (cs : List Candidate) (st : St)
    (h : (importOne v c st).err = none) :
    runLoop v (c :: cs) st = runLoop v cs (importOne v c st).st := by
  simp [runLoop, h]

theorem runLoop_cons_err (v : String) (c : Candidate) (cs : List Candidate) (st : St)
    (h : (importOne v c st).err.isSome = true) :
    runLoop v (c :: cs) st = importOne v c st := by
  obtain ⟨m, hm⟩ := Option.isSome_iff_exists.mp h
  simp [runLoop, hm]

theorem runLoop_append_ok (v : String) (as bs : List Candidate) (st : St)
    (h : (runLoop v as st).err = none) :
    runLoop v (as ++ bs) st = runLoop v bs (runLoop v as st).st := by
  induction as generalizing st with
  | nil => simp [runLoop_nil]
  | cons a as ih =>
    by_cases ha : (importOne v a st).err = none
    · rw [List.cons_append, runLoop_cons_ok v a (as ++ bs) st ha, runLoop_cons_ok v a as st ha]
      rw [runLoop_cons_ok v a as st ha] at h
      exact ih _ h
    · rw [runLoop_cons_err v a as st (Option.ne_none_iff_isSome.mp ha)] at h
      exact absurd h ha

theorem relocate_err_frame (v : String) (c : Candidate) (po : Option String) (st : St)
    (m : String) (h : (importRelocate v c po st).err = some m) :
    (importRelocate v c po st).st.saved = st.saved := by
  rcases hE : importRelocate v c po st with ⟨st', err⟩
  rw [hE] at h
  simp only [importRelocate] at hE
  repeat' split at hE
  all_goals injection hE with hA hB
  all_goals subst hA
  all_goals simp_all [St.log]

theorem relocate_trace_no_summary (v : String) (c : Candidate) (po : Option String) (st : St)
    (e : Event) (he : e ∈ (importRelocate v c po st).st.trace) :
    e ∈ st.trace ∨ isSummary e = false := by
  rcases hE : importRelocate v c po st with ⟨st', err⟩
  rw [hE] at he
  simp only [importRelocate] at hE
  repeat' split at hE
  all_goals injection hE with hA hB
  all_goals subst hA
  all_goals simp only [St.log_trace, List.append_assoc] at he
  all_goals first
    | exact Or.inl he
    | (rcases List.mem_append.mp he with h | h
       · exact Or.inl h
       · fin_cases h <;> exact Or.inr rfl)


theorem relocate_preserves_file (v : String) (c : Candidate) (po : Option String) (st : St)
    (p : String) (hp : p ∈ st.fs.files) (h1 : p ≠ c.path)
    (h2 : ∀ n, c.fileName = some n → p ≠ pathJoin (dest_dir v c.pubkey) n) :
    p ∈ (importRelocate v c po st).st.fs.files := by
  rcases hE : importRelocate v c po st with ⟨st', err⟩
  simp only [importRelocate] at hE
  repeat' split at hE
  all_goals injection hE with hA hB
  all_goals subst hA
  all_goals simp_all [St.log]

theorem importOne_err_frame (v : String) (c : Candidate) (st : St) (m : String)
    (h : (importOne v c st).err = some m) :
    (importOne v c st).st.saved = st.saved := by
  rcases hE : importOne v c st with ⟨st', err⟩
  rw [hE] at h
  simp only [importOne] at hE
  repeat' split at hE
  all_goals rw [← hE] at h ⊢
  all_goals first
    | rfl
    | exact relocate_err_frame v c _ _ m h

theorem importOne_trace_no_summary (v : String) (c : Candidate) (st : St) (e : Event)
    (he : e ∈ (importOne v c st).st.trace) : e ∈ st.trace ∨ isSummary e = false := by
  rcases hE : importOne v c st with ⟨st', err⟩
  rw [hE] at he
  simp only [importOne] at hE
  repeat' split at hE
  all_goals rw [← hE] at he
  all_goals first
    | (simp only [St.log_trace, List.append_assoc] at he
       first
         | exact Or.inl he
         | (rcases List.mem_append.mp he with h | h
            · exact Or.inl h
            · fin_cases h <;> exact Or.inr rfl))
    | (rcases relocate_trace_no_summary v c _ _ e he with hin | hns
       · simp only [St.log_trace, List.append_assoc] at hin
         rcases List.mem_append.mp hin with h | h
         · exact Or.inl h
         · fin_cases h <;> exact Or.inr rfl
       · exact Or.inr hns)

theorem importOne_preserves_file (v : String) (c : Candidate) (st : St) (p : String)
    (hp : p ∈ st.fs.files) (h1 : p ≠ c.path)
    (h2 : ∀ n, c.fileName = some n → p ≠ pathJoin (dest_dir v c.pubkey) n) :
    p ∈ (importOne v c st).st.fs.files := by
  rcases hE : importOne v c st with ⟨st', err⟩
  simp only [importOne] at hE
  repeat' split at hE
  all_goals rw [← hE]
  all_goals first
    | exact hp
    | exact relocate_preserves_file v c _ _ p hp h1 h2

theorem importOne_saved_or (v : String) (c : Candidate) (st : St) :
    (importOne v c st).st.saved = st.saved ∨
    ∃ d, (importOne v c st).st.saved = st.defs ++ [d] ∧
      (importOne v c st).st.defs = st.defs ++ [d] ∧ (importOne v c st).err = none := by
  cases herr : (importOne v c st).err with
  | some m => exact Or.inl (importOne_err_frame v c st m herr)
  | none =>
    obtain ⟨n, po, _, _, _, hrec⟩ := importOne_success_spec v c st herr
    exact Or.inr ⟨mkDef v c n po, by rw [hrec], by rw [hrec], rfl⟩

theorem runLoop_saved_mono (v : String) (cs : List Candidate) (st : St)
    (h : ∃ t, st.defs = st.saved ++ t) :
    ∃ u, (runLoop v cs st).st.saved = st.saved ++ u := by
  induction cs generalizing st with
  | nil => exact ⟨[], by simp [runLoop_nil]⟩
  | cons c cs ih =>
    cases herr : (importOne v c st).err with
    | some m =>
      rw [runLoop_cons_err v c cs st (by rw [herr]; rfl)]
      exact ⟨[], by rw [importOne_err_frame v c st m herr]; simp⟩
    | none =>
      rw [runLoop_cons_ok v c cs st herr]
      obtain ⟨n, po, hn, hfe, hpe, hrec⟩ := importOne_success_spec v c st herr
      obtain ⟨t, ht⟩ := h
      have hsv : (importOne v c st).st.saved = st.saved ++ (t ++ [mkDef v c n po]) := by
        rw [hrec]
        simp [ht]
      have hdf : (importOne v c st).st.defs = (importOne v c st).st.saved ++ [] := by
        rw [hrec]
        simp
      obtain ⟨u, hu⟩ := ih (importOne v c st).st ⟨[], hdf⟩
      exact ⟨t ++ [mkDef v c n po] ++ u, by rw [hu, hsv]; simp⟩

theorem runLoop_trace_no_summary (v : String) (cs : List Candidate) (st : St) (e : Event)
    (he : e ∈ (runLoop v cs st).st.trace) : e ∈ st.trace ∨ isSummary e = false := by
  induction cs generalizing st with
  | nil => exact Or.inl (by simpa [runLoop_nil] using he)
  | cons c cs ih =>
    cases herr : (importOne v c st).err with
    | some m =>
      rw [runLoop_cons_err v c cs st (by rw [herr]; rfl)] at he
      exact importOne_trace_no_summary v c st e he
    | none =>
      rw [runLoop_cons_ok v c cs st herr] at he
      rcases ih (importOne v c st).st he with hin | hns
      · exact importOne_trace_no_summary v c st e hin
      · exact Or.inr hns

theorem finishLoop_spec (v : String) (ks : List Candidate) (st : St)
    (htr : ∀ e ∈ st.trace, isSummary e = false) :
    ((finishLoop v ks st).err = none →
      (finishLoop v ks st).st.trace.getLast? = some (Event.summary ks.length)) ∧
    ((finishLoop v ks st).err.isSome = true →
      ∀ e ∈ (finishLoop v ks st).st.trace, isSummary e = false) := by
  cases herr : (runLoop v ks st).err with
  | none =>
    constructor
    · intro _
      simp [finishLoop, herr, St.log, List.getLast?_concat]
    · intro hs
      simp [finishLoop, herr] at hs
  | some m =>
    constructor
    · intro h0
      simp [finishLoop, herr] at h0
    · intro _ e he
      simp only [finishLoop, herr] at he
      rcases runLoop_trace_no_summary v ks st e he with h | h
      · exact htr e h
      · exact h

theorem runLoop_success_build (v : String) (cs : List Candidate) (st : St)
    (hok : (runLoop v cs st).err = none)
    (hsd : st.saved = st.defs)
    (hH : ∀ c ∈ cs, ∀ c' ∈ cs, ∀ n, c'.fileName = some n →
      c.path ≠ pathJoin (dest_dir v c'.pubkey) n)
    (hsep : ∀ c ∈ cs, ∀ d ∈ st.saved, c.path ≠ d.container_path)
    (hfiles : ∀ d ∈ st.saved, d.container_path ∈ st.fs.files) :
    ∃ newdefs,
      (runLoop v cs st).st.saved = st.saved ++ newdefs ∧
      newdefs.map ValidatorDefinition.identity = cs.map Candidate.pubkey ∧
      ∀ d ∈ (runLoop v cs st).st.saved,
        d.container_path ∈ (runLoop v cs st).st.fs.files := by
  induction cs generalizing st with
  | nil =>
    refine ⟨[], by simp [runLoop_nil], by simp, ?_⟩
    simpa [runLoop_nil] using hfiles
  | cons c cs ih =>
    have herr1 : (importOne v c st).err = none := by
      cases herr : (importOne v c st).err with
      | none => rfl
      | some m =>
        rw [runLoop_cons_err v c cs st (by rw [herr]; rfl), herr] at hok
        cases hok
    rw [runLoop_cons_ok v c cs st herr1] at hok ⊢
    obtain ⟨n, po, hn, hfileEx, hdupEx, hrec⟩ := importOne_success_spec v c st herr1
    have hmoved_ne : c.path ≠ pathJoin (dest_dir v c.pubkey) n :=
      hH c (List.mem_cons_self c cs) c (List.mem_cons_self c cs) n hn
    have hsaved1 : (importOne v c st).st.saved = st.saved ++ [mkDef v c n po] := by
      rw [hrec, hsd]
    have hdefs1 : (importOne v c st).st.defs = st.saved ++ [mkDef v c n po] := by
      rw [hrec, hsd]
    have hfs1 : (importOne v c st).st.fs =
        ((st.fs.createDirAll (dest_dir v c.pubkey)).createFile
          (pathJoin (dest_dir v c.pubkey) n)).removeFile c.path := by
      rw [hrec]
    have hmem1 : ∀ p, p ∈ (importOne v c st).st.fs.files ↔
        ((p = pathJoin (dest_dir v c.pubkey) n ∨ p ∈ st.fs.files) ∧ p ≠ c.path) := by
      intro p
      rw [hfs1]
      simp
    have hfiles1 : ∀ d ∈ (importOne v c st).st.saved,
        d.container_path ∈ (importOne v c st).st.fs.files := by
      intro d hd
      rw [hsaved1] at hd
      rcases List.mem_append.mp hd with hd | hd
      · exact (hmem1 _).mpr ⟨Or.inr (hfiles d hd),
          fun hEq => hsep c (List.mem_cons_self c cs) d hd hEq.symm⟩
      · rw [List.mem_singleton.mp hd]
        exact (hmem1 _).mpr ⟨Or.inl rfl, fun hEq => hmoved_ne hEq.symm⟩
    have hsep1 : ∀ c₂ ∈ cs, ∀ d ∈ (importOne v c st).st.saved,
        c₂.path ≠ d.container_path := by
      intro c₂ hc₂ d hd
      rw [hsaved1] at hd
      rcases List.mem_append.mp hd with hd | hd
      · exact hsep c₂ (List.mem_cons_of_mem c hc₂) d hd
      · rw [List.mem_singleton.mp hd]
        exact hH c₂ (List.mem_cons_of_mem c hc₂) c (List.mem_cons_self c cs) n hn
    have hsd1 : (importOne v c st).st.saved = (importOne v c st).st.defs := by
      rw [hsaved1, hdefs1]
    have hH1 : ∀ c₂ ∈ cs, ∀ c₃ ∈ cs, ∀ m, c₃.fileName = some m →
        c₂.path ≠ pathJoin (dest_dir v c₃.pubkey) m :=
      fun c₂ h₂ c₃ h₃ => hH c₂ (List.mem_cons_of_mem c h₂) c₃ (List.mem_cons_of_mem c h₃)
    obtain ⟨nd, hnd1, hnd2, hnd3⟩ := ih (importOne v c st).st hok hsd1 hH1 hsep1 hfiles1
    refine ⟨mkDef v c n po :: nd, ?_, ?_, hnd3⟩
    · rw [hnd1, hsaved1]
      simp
    · simp [hnd2, mkDef]

/-! Claim theorems. -/

/-- C4: for every container and sequence of operator inputs, the
password-acquisition loop returns no password on an empty input (without any
decryption attempt), returns the entered secret on the first non-empty input
whose decryption succeeds, re-prompts on an invalid-password failure
(continuing with the remaining inputs), aborts fatally on any other
decryption failure, and performs exactly one decryption attempt per
non-empty offered password. -/
theorem C4_password_loop :
    (∀ (d : String → DecryptResult) (rest : List String),
      passwordLoop d ("" :: rest) = (PwOutcome.noPassword, 0)) ∧
    (∀ (d : String → DecryptResult) (p : String) (rest : List String),
      p.isEmpty = false → d p = DecryptResult.ok →
      passwordLoop d (p :: rest) = (PwOutcome.password p, 1)) ∧
    (∀ (d : String → DecryptResult) (p : String) (rest : List String),
      p.isEmpty = false → d p = DecryptResult.invalidPassword →
      passwordLoop d (p :: rest) = ((passwordLoop d rest).1, (passwordLoop d rest).2 + 1)) ∧
    (∀ (d : String → DecryptResult) (p : String) (rest : List String) (e : String),
      p.isEmpty = false → d p = DecryptResult.otherError e →
      passwordLoop d (p :: rest) =
        (PwOutcome.fatal ("Error whilst decrypting keypair: " ++ e), 1)) ∧
    (∀ (d : String → DecryptResult) (ps : List String) (p : String),
      (∀ q ∈ ps, q.isEmpty = false ∧ d q = DecryptResult.invalidPassword) →
      p.isEmpty = false → d p = DecryptResult.ok →
      passwordLoop d (ps ++ [p]) = (PwOutcome.password p, ps.length + 1)) := by
  refine ⟨fun d rest => rfl, ?_, ?_, ?_, ?_⟩
  · intro d p rest hp hok
    simp [passwordLoop, hp, hok]
  · intro d p rest hp hinv
    simp [passwordLoop, hp, hinv]
  · intro d p rest e hp herr
    simp [passwordLoop, hp, herr]
  · intro d ps p hps hp hok
    induction ps with
    | nil => simp [passwordLoop, hp, hok]
    | cons q qs ih =>
      obtain ⟨hq, hqi⟩ := hps q (List.mem_cons_self q qs)
      have hrest := ih (fun r hr => hps r (List.mem_cons_of_mem q hr))
      simp [passwordLoop, hq, hqi, hrest]

/-- C4 witness: one wrong then one right password on a concrete oracle. -/
theorem C4_witness :
    passwordLoop dEx (["a"] ++ ["b"]) = (PwOutcome.password "b", ["a"].length + 1) :=
  C4_password_loop.2.2.2.2 dEx ["a"] "b" (by decide) (by decide) (by decide)

/-- C7: the destination directory is the managed root joined with the
literal marker `0x` plus the public identifier; for a fixed root this
mapping is injective in the identifier; on the spec's example the
destination is `/tmp/vals/0xabc123` and the relocated file keeps its
original file name; and every successful iteration registers exactly the
definition whose path is the destination directory joined with the
original file name. -/
theorem C7_destination :
    (∀ r p, dest_dir r p = pathJoin r ("0x" ++ p)) ∧
    (∀ r p q, dest_dir r p = dest_dir r q → p = q) ∧
    dest_dir "/tmp/vals" "abc123" = "/tmp/vals/0xabc123" ∧
    pathJoin (dest_dir "/tmp/vals" "abc123") "keystore-0.json" =
      "/tmp/vals/0xabc123/keystore-0.json" ∧
    (∀ (v : String) (c : Candidate) (st : St), (importOne v c st).err = none →
      ∃ n po, c.fileName = some n ∧
        (importOne v c st).st.defs = st.defs ++
          [{ identity := c.pubkey, container_path := pathJoin (dest_dir v c.pubkey) n,
             password := po, enabled := true }]) := by
  refine ⟨fun r p => rfl, dest_dir_injective, by decide, by decide, ?_⟩
  intro v c st h
  obtain ⟨n, po, hn, _, _, hrec⟩ := importOne_success_spec v c st h
  exact ⟨n, po, hn, by rw [hrec]; rfl⟩

/-- C7 witness: a concrete successful import registers the relocated path. -/
theorem C7_witness :
    ∃ n po, okCand.fileName = some n ∧
      (importOne "/tmp/vals" okCand okSt).st.defs = okSt.defs ++
        [{ identity := okCand.pubkey,
           container_path := pathJoin (dest_dir "/tmp/vals" okCand.pubkey) n,
           password := po, enabled := true }] :=
  C7_destination.2.2.2.2 "/tmp/vals" okCand okSt (by decide)

/-- C1: in an iteration that reaches relocation (copy succeeds) and whose
removal of the original fails: if the original still exists and the rollback
deletion succeeds, the just-made copy is deleted and the relocation error
`Unable to delete ...` is reported; if the original no longer exists, the
distinct error `An error occurred whilst moving files` is reported and the
copy is kept as the sole surviving instance; and whenever the rollback
deletion itself does not fail, the original and the copy never both remain
on disk. -/
theorem C1_remove_original_fails (v : String) (c : Candidate) (st : St)
    (po : Option String) (n : String)
    (hfile : st.fs.fileExists c.path = true)
    (hopen : c.flt.openFails = false) (hparse : c.flt.parseFails = false)
    (hpw : resolvedPassword (passwordLoop c.decrypt c.inputs).1 = some po)
    (hdup : st.fs.pathExists (dest_dir v c.pubkey) = false)
    (hmk : c.flt.mkdirFails = false)
    (hn : c.fileName = some n)
    (hcp : c.flt.copyFails = false)
    (hrm : c.flt.removeOriginalFails = true)
    (hne : c.path ≠ pathJoin (dest_dir v c.pubkey) n) :
    (c.flt.originalGoneAfterFailedRemove = false → c.flt.removeCopyFails = false →
      (importOne v c st).err = some ("Unable to delete " ++ c.path) ∧
      (importOne v c st).st.fs.fileExists c.path = true ∧
      (importOne v c st).st.fs.fileExists (pathJoin (dest_dir v c.pubkey) n) = false) ∧
    (c.flt.originalGoneAfterFailedRemove = true →
      (importOne v c st).err = some "An error occurred whilst moving files" ∧
      (importOne v c st).st.fs.fileExists c.path = false ∧
      (importOne v c st).st.fs.fileExists (pathJoin (dest_dir v c.pubkey) n) = true) ∧
    (c.flt.removeCopyFails = false →
      ¬((importOne v c st).st.fs.fileExists c.path = true ∧
        (importOne v c st).st.fs.fileExists (pathJoin (dest_dir v c.pubkey) n) = true)) := by
  rw [importOne_resolved v c st po hfile hopen hparse hpw]
  refine ⟨?_, ?_, ?_⟩
  · intro hgone hrc
    have h := relocate_rollback v c po ((st.log (Event.openKeystore c.path)).log (Event.info ("Keystore found at " ++ c.path))) n hdup hmk hn hcp hrm hgone hrc hfile hne
    exact ⟨h.1, h.2.1, h.2.2.1⟩
  · intro hgone
    have h := relocate_race v c po ((st.log (Event.openKeystore c.path)).log (Event.info ("Keystore found at " ++ c.path))) n hdup hmk hn hcp hrm hgone hne
    exact ⟨h.1, h.2.1, h.2.2.1⟩
  · intro hrc hboth
    cases hgone : c.flt.originalGoneAfterFailedRemove with
    | false =>
      have h := relocate_rollback v c po ((st.log (Event.openKeystore c.path)).log (Event.info ("Keystore found at " ++ c.path))) n hdup hmk hn hcp hrm hgone hrc hfile hne
      rw [h.2.2.1] at hboth
      exact Bool.false_ne_true hboth.2
    | true =>
      have h := relocate_race v c po ((st.log (Event.openKeystore c.path)).log (Event.info ("Keystore found at " ++ c.path))) n hdup hmk hn hcp hrm hgone hne
      rw [h.2.1] at hboth
      exact Bool.false_ne_true hboth.1

/-- C1 witness: concrete rollback case — copy deleted, original kept. -/
theorem C1_witness :
    (importOne "/v" c1Cand c1St).err = some ("Unable to delete " ++ c1Cand.path) ∧
    (importOne "/v" c1Cand c1St).st.fs.fileExists c1Cand.path = true ∧
    (importOne "/v" c1Cand c1St).st.fs.fileExists
      (pathJoin (dest_dir "/v" c1Cand.pubkey) "keystore-1.json") = false :=
  (C1_remove_original_fails "/v" c1Cand c1St none "keystore-1.json"
    (by decide) (by decide) (by decide) (by decide) (by decide) (by decide)
    (by decide) (by decide) (by decide) (by decide)).1 rfl rfl

/-- C9 (implicit): in the rollback path, when deleting the just-made copy
itself fails, the run aborts with the copy-removal error and both the
original and the copied keystore remain on disk. -/
theorem C9_rollback_failure (v : String) (c : Candidate) (st : St)
    (po : Option String) (n : String)
    (hfile : st.fs.fileExists c.path = true)
    (hopen : c.flt.openFails = false) (hparse : c.flt.parseFails = false)
    (hpw : resolvedPassword (passwordLoop c.decrypt c.inputs).1 = some po)
    (hdup : st.fs.pathExists (dest_dir v c.pubkey) = false)
    (hmk : c.flt.mkdirFails = false)
    (hn : c.fileName = some n)
    (hcp : c.flt.copyFails = false)
    (hrm : c.flt.removeOriginalFails = true)
    (hgone : c.flt.originalGoneAfterFailedRemove = false)
    (hrc : c.flt.removeCopyFails = true) :
    (importOne v c st).err = some "Unable to remove copied keystore" ∧
    (importOne v c st).st.fs.fileExists c.path = true ∧
    (importOne v c st).st.fs.fileExists (pathJoin (dest_dir v c.pubkey) n) = true := by
  rw [importOne_resolved v c st po hfile hopen hparse hpw]
  have h := relocate_rollback_fails v c po ((st.log (Event.openKeystore c.path)).log (Event.info ("Keystore found at " ++ c.path))) n hdup hmk hn hcp hrm hgone hrc hfile
  exact ⟨h.1, h.2.1, h.2.2.1⟩

/-- C9 witness: concrete failed-rollback case — both copies remain. -/
theorem C9_witness :
    (importOne "/v" c9Cand c9St).err = some "Unable to remove copied keystore" ∧
    (importOne "/v" c9Cand c9St).st.fs.fileExists c9Cand.path = true ∧
    (importOne "/v" c9Cand c9St).st.fs.fileExists
      (pathJoin (dest_dir "/v" c9Cand.pubkey) "keystore-9.json") = true :=
  C9_rollback_failure "/v" c9Cand c9St none "keystore-9.json"
    (by decide) (by decide) (by decide) (by decide) (by decide) (by decide)
    (by decide) (by decide) (by decide) (by decide) (by decide)

theorem importOne_refuses (v : String) (c : Candidate) (st : St) (po : Option String)
    (hfile : st.fs.fileExists c.path = true)
    (hopen : c.flt.openFails = false) (hparse : c.flt.parseFails = false)
    (hpw : resolvedPassword (passwordLoop c.decrypt c.inputs).1 = some po)
    (hdup : st.fs.pathExists (dest_dir v c.pubkey) = true) :
    importOne v c st =
      { st := (st.log (Event.openKeystore c.path)).log
          (Event.info ("Keystore found at " ++ c.path)),
        err := some ("Refusing to re-import an existing public key: " ++ c.path) } := by
  have hE := importOne_resolved v c st po hfile hopen hparse hpw
  exact hE.trans (relocate_dup v c po _ hdup)

theorem importOne_badName_spec (v : String) (c : Candidate) (st : St) (po : Option String)
    (hfile : st.fs.fileExists c.path = true)
    (hopen : c.flt.openFails = false) (hparse : c.flt.parseFails = false)
    (hpw : resolvedPassword (passwordLoop c.decrypt c.inputs).1 = some po)
    (hdup : st.fs.pathExists (dest_dir v c.pubkey) = false)
    (hmk : c.flt.mkdirFails = false)
    (hn : c.fileName = none) :
    importOne v c st =
      { st := { fs := st.fs.createDirAll (dest_dir v c.pubkey),
                defs := st.defs, saved := st.saved,
                trace := st.trace ++ [Event.openKeystore c.path,
                    Event.info ("Keystore found at " ++ c.path),
                    Event.createDir (dest_dir v c.pubkey)] },
        err := some ("Badly formatted file name: " ++ c.path) } := by
  have hE := importOne_resolved v c st po hfile hopen hparse hpw
  refine hE.trans ?_
  simp [importRelocate, St.log_fs, hdup, hmk, hn, St.log]

/-- C2: a candidate whose computed destination directory already exists at
the duplicate-check step makes the iteration fail with the refusal error,
leaving the filesystem, the in-memory registry and the saved registry
exactly as they were, and the batch loop stops with that error, processing
no further candidates. -/
theorem C2_duplicate_refusal (v : String) (c : Candidate) (st : St)
    (po : Option String) (cs : List Candidate)
    (hfile : st.fs.fileExists c.path = true)
    (hopen : c.flt.openFails = false) (hparse : c.flt.parseFails = false)
    (hpw : resolvedPassword (passwordLoop c.decrypt c.inputs).1 = some po)
    (hdup : st.fs.pathExists (dest_dir v c.pubkey) = true) :
    (importOne v c st).err =
      some ("Refusing to re-import an existing public key: " ++ c.path) ∧
    (importOne v c st).st.fs = st.fs ∧
    (importOne v c st).st.defs = st.defs ∧
    (importOne v c st).st.saved = st.saved ∧
    runLoop v (c :: cs) st = importOne v c st := by
  have hcomb := importOne_refuses v c st po hfile hopen hparse hpw hdup
  refine ⟨by rw [hcomb], by rw [hcomb]; rfl, by rw [hcomb]; rfl, by rw [hcomb]; rfl, ?_⟩
  exact runLoop_cons_err v c cs st (by rw [hcomb]; rfl)

/-- C2 witness: concrete refusal on a pre-existing destination directory. -/
theorem C2_witness :
    (importOne "/v" c2Cand c2St).err =
      some ("Refusing to re-import an existing public key: " ++ c2Cand.path) ∧
    (importOne "/v" c2Cand c2St).st.fs = c2St.fs ∧
    (importOne "/v" c2Cand c2St).st.defs = c2St.defs ∧
    (importOne "/v" c2Cand c2St).st.saved = c2St.saved ∧
    runLoop "/v" (c2Cand :: []) c2St = importOne "/v" c2Cand c2St :=
  C2_duplicate_refusal "/v" c2Cand c2St none []
    (by decide) (by decide) (by decide) (by decide) (by decide)

/-- C10 (implicit): a candidate whose path has no UTF-8-convertible file
name fails with the badly-formatted-file-name error only after the
destination directory has been created, leaving that directory on disk with
no file added; a subsequent import attempt of a candidate with the same
public identifier is then refused by the duplicate check. -/
theorem C10_bad_file_name (v : String) (c : Candidate) (st : St)
    (po : Option String)
    (hfile : st.fs.fileExists c.path = true)
    (hopen : c.flt.openFails = false) (hparse : c.flt.parseFails = false)
    (hpw : resolvedPassword (passwordLoop c.decrypt c.inputs).1 = some po)
    (hdup : st.fs.pathExists (dest_dir v c.pubkey) = false)
    (hmk : c.flt.mkdirFails = false)
    (hn : c.fileName = none) :
    (importOne v c st).err = some ("Badly formatted file name: " ++ c.path) ∧
    (importOne v c st).st.fs.dirExists (dest_dir v c.pubkey) = true ∧
    (importOne v c st).st.fs.files = st.fs.files ∧
    (importOne v c st).st.defs = st.defs ∧
    (importOne v c st).st.saved = st.saved ∧
    (∀ (c' : Candidate) (po' : Option String),
      c'.pubkey = c.pubkey →
      (importOne v c st).st.fs.fileExists c'.path = true →
      c'.flt.openFails = false → c'.flt.parseFails = false →
      resolvedPassword (passwordLoop c'.decrypt c'.inputs).1 = some po' →
      (importOne v c' (importOne v c st).st).err =
        some ("Refusing to re-import an existing public key: " ++ c'.path)) := by
  have hcomb := importOne_badName_spec v c st po hfile hopen hparse hpw hdup hmk hn
  have hdir : (importOne v c st).st.fs.dirExists (dest_dir v c.pubkey) = true := by
    rw [hcomb, FS.dirExists_iff]
    simp
  refine ⟨by rw [hcomb], hdir, by rw [hcomb]; rfl, by rw [hcomb], by rw [hcomb], ?_⟩
  intro c' po' hpk hfile' hopen' hparse' hpw'
  have hdup2 : (importOne v c st).st.fs.pathExists (dest_dir v c'.pubkey) = true := by
    rw [hpk, FS.pathExists, hdir, Bool.or_true]
  rw [importOne_refuses v c' (importOne v c st).st po' hfile' hopen' hparse' hpw' hdup2]

/-- C10 witness: concrete badly-named candidate leaves an empty destination
directory, and re-importing the same identity is refused. -/
theorem C10_witness :
    (importOne "/v" c10Cand c10St).err =
      some ("Badly formatted file name: " ++ c10Cand.path) ∧
    (importOne "/v" c10Cand c10St).st.fs.dirExists (dest_dir "/v" c10Cand.pubkey) = true ∧
    (importOne "/v" c10Cand c10St).st.fs.files = c10St.fs.files ∧
    (importOne "/v" c10Cand c10St).st.defs = c10St.defs ∧
    (importOne "/v" c10Cand c10St).st.saved = c10St.saved ∧
    (∀ (c' : Candidate) (po' : Option String),
      c'.pubkey = c10Cand.pubkey →
      (importOne "/v" c10Cand c10St).st.fs.fileExists c'.path = true →
      c'.flt.openFails = false → c'.flt.parseFails = false →
      resolvedPassword (passwordLoop c'.decrypt c'.inputs).1 = some po' →
      (importOne "/v" c' (importOne "/v" c10Cand c10St).st).err =
        some ("Refusing to re-import an existing public key: " ++ c'.path)) :=
  C10_bad_file_name "/v" c10Cand c10St none
    (by decide) (by decide) (by decide) (by decide) (by decide) (by decide) rfl

/-- C3: a registry save can only happen in an iteration whose relocation
(copy plus removal of the original) succeeded, and in that iteration's
event segment the save event comes strictly after the copy and the removal
events; the batch loop stops at the first failing candidate, ignoring all
candidates after it; the saved registry only ever grows (already-completed
imports stay registered); and an iteration never removes any file other
than its own original path and its own destination file. -/
theorem C3_sequencing :
    (∀ (v : String) (c : Candidate) (st : St),
      (importOne v c st).st.saved ≠ st.saved →
      ∃ n po pre post,
        c.fileName = some n ∧
        (importOne v c st).st.trace = st.trace ++ (pre ++ Event.saveRegistry :: post) ∧
        Event.copyFile c.path (pathJoin (dest_dir v c.pubkey) n) ∈ pre ∧
        Event.removeFileEv c.path ∈ pre ∧
        (importOne v c st).st.saved = st.defs ++ [mkDef v c n po]) ∧
    (∀ (v : String) (cs₁ : List Candidate) (c : Candidate) (cs₂ : List Candidate) (st : St),
      (runLoop v cs₁ st).err = none →
      (importOne v c (runLoop v cs₁ st).st).err.isSome = true →
      runLoop v (cs₁ ++ c :: cs₂) st = importOne v c (runLoop v cs₁ st).st) ∧
    (∀ (v : String) (cs : List Candidate) (st : St),
      (∃ t, st.defs = st.saved ++ t) →
      ∃ u, (runLoop v cs st).st.saved = st.saved ++ u) ∧
    (∀ (v : String) (c : Candidate) (st : St) (p : String),
      p ∈ st.fs.files → p ≠ c.path →
      (∀ n, c.fileName = some n → p ≠ pathJoin (dest_dir v c.pubkey) n) →
      p ∈ (importOne v c st).st.fs.files) := by
  refine ⟨?_, ?_, runLoop_saved_mono, importOne_preserves_file⟩
  · intro v c st hsaved
    cases herr : (importOne v c st).err with
    | some m => exact absurd (importOne_err_frame v c st m herr) hsaved
    | none =>
      obtain ⟨n, po, hn, _, _, hrec⟩ := importOne_success_spec v c st herr
      refine ⟨n, po,
        [Event.openKeystore c.path, Event.info ("Keystore found at " ++ c.path),
         Event.createDir (dest_dir v c.pubkey),
         Event.copyFile c.path (pathJoin (dest_dir v c.pubkey) n),
         Event.removeFileEv c.path, Event.info "Successfully moved keystore."],
        [Event.info "Successfully updated validator_definitions.yml."],
        hn, by rw [hrec]; rfl, by simp, by simp, by rw [hrec]⟩
  · intro v cs₁ c cs₂ st h1 h2
    rw [runLoop_append_ok v cs₁ (c :: cs₂) st h1, runLoop_cons_err v c cs₂ _ h2]

/-- C3 witness: with one good candidate, one failing candidate and one more
after it, the run equals the good iteration followed by the failing one. -/
theorem C3_witness :
    runLoop "/v" ([cg1] ++ cbad :: [cg2]) c3St =
      importOne "/v" cbad (runLoop "/v" [cg1] c3St).st :=
  C3_sequencing.2.1 "/v" [cg1] cbad [cg2] c3St (by decide) (by decide)

/-- C5: selecting both of the single-file and directory source modes, or
neither, is rejected by the argument parser as a configuration error before
`cli_run` starts, so the run fails with no I/O performed (empty event trace,
filesystem untouched, no registry loaded). -/
theorem C5_mode_selection (inp : RunInput)
    (h : inp.keystoreArg.isSome = inp.dirArg.isSome) :
    (program_run inp).err =
      some "Configuration error: supply exactly one of --keystore and --directory" ∧
    (program_run inp).st.trace = [] ∧
    (program_run inp).st.fs = inp.initFS ∧
    (program_run inp).st.defs = [] ∧ (program_run inp).st.saved = [] := by
  have hacc : cli_app_accepts inp.keystoreArg.isSome inp.dirArg.isSome = false := by
    rw [← h]
    cases inp.keystoreArg.isSome <;> rfl
  simp [program_run, hacc]

/-- C5 witness: neither mode selected on a concrete input. -/
theorem C5_witness :
    (program_run c5Inp).err =
      some "Configuration error: supply exactly one of --keystore and --directory" ∧
    (program_run c5Inp).st.trace = [] ∧
    (program_run c5Inp).st.fs = c5Inp.initFS ∧
    (program_run c5Inp).st.defs = [] ∧ (program_run c5Inp).st.saved = [] :=
  C5_mode_selection c5Inp rfl

/-- C6 counterexample: a run aborted during its (first) candidate emits an
error but no summary event at all, contradicting the claim that a summary
count is also emitted when the run is aborted partway. -/
theorem C6_counterexample :
    (cli_run c6Inp).err.isSome = true ∧
    (cli_run c6Inp).st.trace.all (fun e => !isSummary e) = true := by decide

/-- C6 (amended): for a run over a non-empty candidate list, the summary
count (the number of candidates) is emitted as the final event exactly when
every candidate is processed successfully; an aborted run emits no summary
event at all. -/
theorem C6_summary_only_on_success (inp : RunInput) (ks : List Candidate)
    (hks : candidatesOf inp = some ks) (hne : ks ≠ []) :
    ((cli_run inp).err = none →
      (cli_run inp).st.trace.getLast? = some (Event.summary ks.length)) ∧
    ((cli_run inp).err.isSome = true →
      ∀ e ∈ (cli_run inp).st.trace, isSummary e = false) := by
  rcases hk : inp.keystoreArg with _ | c <;> rcases hd : inp.dirArg with _ | cs <;>
    simp only [candidatesOf, hk, hd] at hks
  · exact Option.noConfusion hks
  · have hcs : cs = ks := by injection hks
    subst hcs
    have hemp : cs.isEmpty = false := by
      cases cs with
      | nil => exact absurd rfl hne
      | cons a as => rfl
    simp only [cli_run, hk, hd, hemp, Bool.false_eq_true, if_false]
    refine finishLoop_spec _ _ _ ?_
    intro e he
    simp at he
    rcases he with rfl | rfl <;> rfl
  · have hc : [c] = ks := by injection hks
    subst hc
    simp only [cli_run, hk, hd]
    refine finishLoop_spec _ _ _ ?_
    intro e he
    simp at he
    rcases he with rfl | rfl <;> rfl
  · exact Option.noConfusion hks

/-- C6 witness: a concrete fully-successful single-candidate run ends with
the summary event. -/
theorem C6_witness :
    (cli_run c6OkInp).st.trace.getLast? = some (Event.summary 1) :=
  (C6_summary_only_on_success c6OkInp [c6Ok] rfl (by simp)).1 (by decide)

/-- C8: after a successful run over candidates with pairwise distinct
identities, starting from an empty registry, the saved registry holds
exactly one definition per candidate, its identities are pairwise distinct,
and every definition's container path exists on disk (under the side
condition, automatic for discovery output on a real filesystem, that no
candidate's source path coincides with any computed destination file
path). -/
theorem C8_registry_consistency (v : String) (cs : List Candidate) (st : St)
    (hdefs : st.defs = []) (hsaved : st.saved = [])
    (hdist : (cs.map Candidate.pubkey).Pairwise (fun a b => a ≠ b))
    (hH : ∀ c ∈ cs, ∀ c' ∈ cs, ∀ n, c'.fileName = some n →
      c.path ≠ pathJoin (dest_dir v c'.pubkey) n)
    (hok : (runLoop v cs st).err = none) :
    (runLoop v cs st).st.saved.length = cs.length ∧
    ((runLoop v cs st).st.saved.map ValidatorDefinition.identity).Pairwise
      (fun a b => a ≠ b) ∧
    ∀ d ∈ (runLoop v cs st).st.saved,
      (runLoop v cs st).st.fs.fileExists d.container_path = true := by
  obtain ⟨nd, h1, h2, h3⟩ := runLoop_success_build v cs st hok (by rw [hsaved, hdefs])
    hH (by simp [hsaved]) (by simp [hsaved])
  refine ⟨?_, ?_, ?_⟩
  · rw [h1, hsaved]
    simpa using congrArg List.length h2
  · rw [h1, hsaved]
    simpa [h2] using hdist
  · intro d hd
    rw [FS.fileExists_iff]
    exact h3 d hd

/-- C8 witness: two concrete candidates with distinct identities import
successfully into a consistent registry. -/
theorem C8_witness :
    (runLoop "/v" [c8a, c8b] c8St).st.saved.length = [c8a, c8b].length ∧
    ((runLoop "/v" [c8a, c8b] c8St).st.saved.map ValidatorDefinition.identity).Pairwise
      (fun a b => a ≠ b) ∧
    ∀ d ∈ (runLoop "/v" [c8a, c8b] c8St).st.saved,
      (runLoop "/v" [c8a, c8b] c8St).st.fs.fileExists d.container_path = true :=
  C8_registry_consistency "/v" [c8a, c8b] c8St rfl rfl (by decide)
    (by
      intro c hc c' hc' n hn
      have hcc : c = c8a ∨ c = c8b := by simpa using hc
      have hcc' : c' = c8a ∨ c' = c8b := by simpa using hc'
      rcases hcc with rfl | rfl <;> rcases hcc' with rfl | rfl <;>
        simp only [c8a, c8b, Option.some.injEq] at hn <;> subst hn <;> decide)
    (by decide)

end LighthouseImport
